import Mathlib

/- Verification development for the mlb-mcp repository.

The repository is a thin adapter layer: each tool function forwards its
parameters to an external provider (the MLB statsapi client or pybaseball)
and reshapes the response into a JSON-serializable mapping, with a uniform
error convention.  We shallowly embed the adapter functions:

* JSON values are modelled by `JVal`.
* A pandas DataFrame is modelled by `DataFrame` (ordered column names plus
  rows of cells); a cell is null (NaN/None/NaT), a string, or a number.
* A provider call that may raise is modelled by `Except String α`: the
  `Except.error` case carries `str(e)` of the raised exception.
* A Python function that raises is embedded with result `Except String JVal`
  (`Except.error` = raise); a function whose body catches every exception
  and always returns is embedded with result `JVal`.
* The ambient clock (`datetime.datetime.now()`) enters only through the
  precomputed string `yesterday`, passed as an explicit argument.

Namespace `StatcastTools` embeds src/mlb_stats_mcp/tools/statcast_tools.py,
namespace `Tools` embeds src/mlb_stats_mcp/tools/mlb_statsapi_tools.py, and
namespace `Server` embeds the tool bodies of src/mlb_stats_mcp/server.py
(which textually duplicates ten of the `Tools` functions). -/

/-- JSON-like values produced by the adapters. -/
inductive JVal where
  | jnull : JVal
  | jbool : Bool → JVal
  | jint : Int → JVal
  | jstr : String → JVal
  | jlist : List JVal → JVal
  | jobj : List (String × JVal) → JVal

/-- Does a JSON object carry the given key? (Python `"k" in d`.) -/
def JVal.hasKey (v : JVal) (k : String) : Bool :=
  match v with
  | JVal.jobj fields => fields.any (fun p => p.fst == k)
  | _ => false

/-- A Python list of strings as a JSON value. -/
def jstrs (xs : List String) : JVal :=
  JVal.jlist (xs.map JVal.jstr)

/-- An `Optional[int]` as a JSON value (`None` becomes null). -/
def jOptInt : Option Int → JVal
  | none => JVal.jnull
  | some n => JVal.jint n

/-- An `Optional[str]` as a JSON value (`None` becomes null). -/
def jOptStr : Option String → JVal
  | none => JVal.jnull
  | some s => JVal.jstr s

/-- Is `pat` a contiguous sublist of the second argument? -/
def subList (pat : List Char) : List Char → Bool
  | [] => pat.isEmpty
  | c :: rest => pat.isPrefixOf (c :: rest) || subList pat rest

/-- Python `pat in s` on strings: substring containment. -/
def strHasSub (s pat : String) : Bool :=
  subList pat.data s.data

/-- One cell of a pandas DataFrame. -/
inductive Cell where
  | null : Cell
  | cstr : String → Cell
  | cnum : Int → Cell
deriving DecidableEq

/-- A pandas DataFrame: ordered column names and rows of cells. -/
structure DataFrame where
  columns : List String
  rows : List (List Cell)
deriving DecidableEq

/-- The per-cell normalization performed by `_convert_dataframe_to_dict`:
`df_clean.where(pd.notnull(df_clean), None)` sends every null cell to None,
and `df_clean.replace("", None)` sends every empty-string cell to None;
all other cell values are kept. -/
def cellClean : Cell → JVal
  | Cell.null => JVal.jnull
  | Cell.cstr s => if s = "" then JVal.jnull else JVal.jstr s
  | Cell.cnum n => JVal.jint n

/-- One record of `df_clean.to_dict(orient="records")`: the row's cells,
normalized, keyed by the column names in order. -/
def recordOfRow (cols : List String) (r : List Cell) : JVal :=
  JVal.jobj (cols.zip (r.map cellClean))

/-- `_convert_dataframe_to_dict` from statcast_tools.py.  `df is None or
df.empty` (a pandas frame is empty when either axis has length zero) yields
`{"data": [], "count": 0}`; otherwise the cells are normalized and the
result carries the records, `count = len(records)` and the column list.
The defensive `except` branch of the Python function guards the pandas
serialization machinery, which the model evaluates totally. -/
def convert_dataframe_to_dict : Option DataFrame → JVal
  | none => JVal.jobj [("data", JVal.jlist []), ("count", JVal.jint 0)]
  | some d =>
    if d.rows.isEmpty || d.columns.isEmpty then
      JVal.jobj [("data", JVal.jlist []), ("count", JVal.jint 0)]
    else
      let records := d.rows.map (recordOfRow d.columns)
      JVal.jobj [("data", JVal.jlist records),
                 ("count", JVal.jint records.length),
                 ("columns", JVal.jlist (d.columns.map JVal.jstr))]

namespace StatcastTools

/-- The `if start_dt is None: start_dt = yesterday.strftime(...)` defaulting
shared by the three date-range statcast tools. -/
def resolveStart : Option String → String → String
  | none, yesterday => yesterday
  | some s, _ => s

/-- The body shared by every statcast tool after its provider call: a raise
from the provider is caught and re-raised with the operation-specific
message head; a zero-row frame triggers `raise Exception("No statcast data
found")`, which the same handler wraps; otherwise the frame is converted. -/
def statcastResult (errHead : String) (fetched : Except String DataFrame) :
    Except String JVal :=
  match fetched with
  | Except.error e => Except.error (errHead ++ e)
  | Except.ok df =>
    if df.rows.length = 0 then
      Except.error (errHead ++ "No statcast data found")
    else
      Except.ok (convert_dataframe_to_dict (some df))

/-- `get_statcast_data` (the duplicated zero-row check in the source
collapses to one). -/
def get_statcast_data (start_dt end_dt team : Option String)
    (verbose parallel : Bool) (yesterday : String)
    (statcast : String → Option String → Option String → Bool → Bool →
      Except String DataFrame) : Except String JVal :=
  statcastResult "Error retrieving Statcast data: "
    (statcast (resolveStart start_dt yesterday) end_dt team verbose parallel)

/-- `get_statcast_batter_data`. -/
def get_statcast_batter_data (player_id : Int) (start_dt end_dt : Option String)
    (yesterday : String)
    (statcast_batter : String → Option String → Int → Except String DataFrame) :
    Except String JVal :=
  statcastResult
    ("Error retrieving Statcast data for batter " ++ toString player_id ++ ": ")
    (statcast_batter (resolveStart start_dt yesterday) end_dt player_id)

/-- `get_statcast_pitcher_data`. -/
def get_statcast_pitcher_data (player_id : Int) (start_dt end_dt : Option String)
    (yesterday : String)
    (statcast_pitcher : String → Option String → Int → Except String DataFrame) :
    Except String JVal :=
  statcastResult
    ("Error retrieving Statcast data for pitcher " ++ toString player_id ++ ": ")
    (statcast_pitcher (resolveStart start_dt yesterday) end_dt player_id)

/-- `get_statcast_batter_exitvelo_barrels`. -/
def get_statcast_batter_exitvelo_barrels (year : Int) (minBBE : Option Int)
    (fetch : Int → Option Int → Except String DataFrame) : Except String JVal :=
  statcastResult
    ("Error retrieving batter exit velocity data for " ++ toString year ++ ": ")
    (fetch year minBBE)

/-- `get_statcast_pitcher_exitvelo_barrels`. -/
def get_statcast_pitcher_exitvelo_barrels (year : Int) (minBBE : Option Int)
    (fetch : Int → Option Int → Except String DataFrame) : Except String JVal :=
  statcastResult
    ("Error retrieving pitcher exit velocity data for " ++ toString year ++ ": ")
    (fetch year minBBE)

/-- `get_statcast_batter_expected_stats`. -/
def get_statcast_batter_expected_stats (year : Int) (minPA : Option Int)
    (fetch : Int → Option Int → Except String DataFrame) : Except String JVal :=
  statcastResult
    ("Error retrieving batter expected stats for " ++ toString year ++ ": ")
    (fetch year minPA)

/-- `get_statcast_pitcher_expected_stats`. -/
def get_statcast_pitcher_expected_stats (year : Int) (minPA : Option Int)
    (fetch : Int → Option Int → Except String DataFrame) : Except String JVal :=
  statcastResult
    ("Error retrieving pitcher expected stats for " ++ toString year ++ ": ")
    (fetch year minPA)

/-- `get_statcast_batter_percentile_ranks`. -/
def get_statcast_batter_percentile_ranks (year : Int)
    (fetch : Int → Except String DataFrame) : Except String JVal :=
  statcastResult
    ("Error retrieving batter percentile ranks for " ++ toString year ++ ": ")
    (fetch year)

/-- `get_statcast_pitcher_percentile_ranks`. -/
def get_statcast_pitcher_percentile_ranks (year : Int)
    (fetch : Int → Except String DataFrame) : Except String JVal :=
  statcastResult
    ("Error retrieving pitcher percentile ranks for " ++ toString year ++ ": ")
    (fetch year)

/-- `get_statcast_batter_pitch_arsenal` (`minPA` defaults to 25 at the
registration layer; here it is an explicit argument). -/
def get_statcast_batter_pitch_arsenal (year : Int) (minPA : Int)
    (fetch : Int → Int → Except String DataFrame) : Except String JVal :=
  statcastResult
    ("Error retrieving batter pitch arsenal data for " ++ toString year ++ ": ")
    (fetch year minPA)

/-- `get_statcast_pitcher_pitch_arsenal`. -/
def get_statcast_pitcher_pitch_arsenal (year : Int) (minP : Option Int)
    (arsenal_type : String)
    (fetch : Int → Option Int → String → Except String DataFrame) :
    Except String JVal :=
  statcastResult
    ("Error retrieving pitcher pitch arsenal data for " ++ toString year ++ ": ")
    (fetch year minP arsenal_type)

/-- `get_statcast_single_game`. -/
def get_statcast_single_game (game_pk : Int)
    (fetch : Int → Except String DataFrame) : Except String JVal :=
  statcastResult
    ("Error retrieving Statcast data for game " ++ toString game_pk ++ ": ")
    (fetch game_pk)

end StatcastTools

namespace Tools

/-- `get_stats`: raw passthrough to `statsapi.get(endpoint, params)`. -/
def get_stats (endpoint : String) (params : JVal)
    (get : String → JVal → Except String JVal) : JVal :=
  match get endpoint params with
  | Except.ok result => result
  | Except.error e => JVal.jobj [("error", JVal.jstr e), ("params", params)]

/-- The `kwargs` dictionary built by `get_schedule` (keys inserted only for
supplied values; `sportId` only when it differs from 1). -/
def scheduleKwargs (date : Option String) (team_id : Option Int)
    (sport_id : Int) (game_type : Option String) : List (String × JVal) :=
  (match date with | some d => [("date", JVal.jstr d)] | none => []) ++
  (match team_id with | some t => [("team", JVal.jint t)] | none => []) ++
  (if sport_id ≠ 1 then [("sportId", JVal.jint sport_id)] else []) ++
  (match game_type with | some g => [("gameType", JVal.jstr g)] | none => [])

/-- `get_schedule`. -/
def get_schedule (date : Option String) (team_id : Option Int)
    (sport_id : Int) (game_type : Option String)
    (schedule : List (String × JVal) → Except String JVal) : JVal :=
  match schedule (scheduleKwargs date team_id sport_id game_type) with
  | Except.ok result => result
  | Except.error e =>
    JVal.jobj [("error", JVal.jstr e),
               ("params_sent", JVal.jobj (scheduleKwargs date team_id sport_id game_type))]

/-- The `kwargs` dictionary built by `get_player_stats`. -/
def playerStatsKwargs (player_id : Int) (group : String) (season : Option Int)
    (stats : String) : List (String × JVal) :=
  [("personId", JVal.jint player_id), ("group", JVal.jstr group),
   ("type", JVal.jstr stats)] ++
  (match season with | some s => [("season", JVal.jint s)] | none => [])

/-- `get_player_stats`. -/
def get_player_stats (player_id : Int) (group : String) (season : Option Int)
    (stats : String)
    (player_stat_data : List (String × JVal) → Except String JVal) : JVal :=
  match player_stat_data (playerStatsKwargs player_id group season stats) with
  | Except.ok result => result
  | Except.error e =>
    JVal.jobj [("error", JVal.jstr e),
               ("params_sent", JVal.jobj (playerStatsKwargs player_id group season stats))]

/-- The `kwargs` dictionary built by `get_standings`. -/
def standingsKwargs (league_id division_id season : Option Int)
    (standings_types : String) : List (String × JVal) :=
  [("standingsTypes", JVal.jstr standings_types)] ++
  (match league_id with | some l => [("leagueId", JVal.jint l)] | none => []) ++
  (match division_id with | some d => [("divisionId", JVal.jint d)] | none => []) ++
  (match season with | some s => [("season", JVal.jint s)] | none => [])

/-- `get_standings`. -/
def get_standings (league_id division_id season : Option Int)
    (standings_types : String)
    (standings_data : List (String × JVal) → Except String JVal) : JVal :=
  match standings_data (standingsKwargs league_id division_id season standings_types) with
  | Except.ok result => result
  | Except.error e =>
    JVal.jobj [("error", JVal.jstr e),
               ("params_sent", JVal.jobj (standingsKwargs league_id division_id season standings_types))]

/-- Python `10 if limit is None else limit` in `get_team_leaders`. -/
def limitOr10 : Option Int → Int
  | none => 10
  | some l => l

/-- `get_team_leaders`: the provider is called with the team, the category,
`limit=10 if limit is None else limit` and the season; `leader_game_type`
is accepted but never forwarded and never placed in the result. -/
def get_team_leaders (team_id : Int) (leader_category : String)
    (season : Option Int) (leader_game_type : String) (limit : Option Int)
    (team_leaders : Int → String → Int → Option Int → Except String String) :
    JVal :=
  match team_leaders team_id leader_category (limitOr10 limit) season with
  | Except.ok leaders_text =>
    JVal.jobj [("teamId", JVal.jint team_id),
               ("leaderCategory", JVal.jstr leader_category),
               ("season", jOptInt season),
               ("results", JVal.jstr leaders_text),
               ("teamLeaders", JVal.jbool true)]
  | Except.error e =>
    JVal.jobj [("error", JVal.jstr e), ("team_id", JVal.jint team_id),
               ("leader_category", JVal.jstr leader_category)]

/-- `lookup_player`: the provider's result list (possibly empty) is wrapped
under `people`; a raise becomes an error mapping carrying the input name. -/
def lookup_player (name : String)
    (lookup : String → Except String JVal) : JVal :=
  match lookup name with
  | Except.ok result => JVal.jobj [("people", result)]
  | Except.error e =>
    JVal.jobj [("error", JVal.jstr e), ("name", JVal.jstr name)]

/-- The `kwargs` dictionary built by `get_boxscore` (Python truthiness:
`None` and the empty string both omit the timecode). -/
def boxscoreKwargs (timecode : Option String) : List (String × JVal) :=
  match timecode with
  | some t => if t = "" then [] else [("timecode", JVal.jstr t)]
  | none => []

/-- `get_boxscore`. -/
def get_boxscore (game_id : Int) (timecode : Option String)
    (boxscore : Int → List (String × JVal) → Except String String) : JVal :=
  match boxscore game_id (boxscoreKwargs timecode) with
  | Except.ok boxscore_text =>
    JVal.jobj [("game_id", JVal.jint game_id),
               ("boxscore", JVal.jstr boxscore_text),
               ("success", JVal.jbool true)]
  | Except.error e =>
    JVal.jobj [("error", JVal.jstr e), ("game_id", JVal.jint game_id)]

/-- The `kwargs` dictionary built by `get_game_pace` (always `sportId: 1`). -/
def gamePaceKwargs (season team_id : Option Int) : List (String × JVal) :=
  [("sportId", JVal.jint 1)] ++
  (match season with | some s => [("season", JVal.jint s)] | none => []) ++
  (match team_id with | some t => [("teamId", JVal.jint t)] | none => [])

/-- `get_game_pace`. -/
def get_game_pace (season team_id : Option Int)
    (game_pace_data : List (String × JVal) → Except String JVal) : JVal :=
  match game_pace_data (gamePaceKwargs season team_id) with
  | Except.ok result => result
  | Except.error e =>
    JVal.jobj [("error", JVal.jstr e),
               ("params_sent", JVal.jobj (gamePaceKwargs season team_id))]

/-- `get_meta`: `statsapi.meta` is called with `fields` only when it is
truthy (Python: `if fields:`); the error mapping echoes the original
`type_name` and `fields` values. -/
def get_meta (type_name : String) (fields : Option String)
    (meta : String → Option String → Except String JVal) : JVal :=
  match (match fields with
         | some f => if f = "" then meta type_name none else meta type_name (some f)
         | none => meta type_name none) with
  | Except.ok result => result
  | Except.error e =>
    JVal.jobj [("error", JVal.jstr e), ("type", JVal.jstr type_name),
               ("fields", jOptStr fields)]

end Tools

namespace Tools

/-- The literal `endpoints` dictionary of `get_available_endpoints` in
mlb_statsapi_tools.py. -/
def endpointsTable : JVal := JVal.jobj [
  ("attendance", JVal.jobj [
    ("url", JVal.jstr "https://statsapi.mlb.com/api/{ver}/attendance"),
    ("required_params", jstrs ["teamId", "leagueId", "leagueListId"]),
    ("all_params", jstrs ["ver", "teamId", "leagueId", "season", "date",
      "leagueListId", "gameType", "fields"]),
    ("notes", JVal.jnull)]),
  ("awards", JVal.jobj [
    ("url", JVal.jstr "https://statsapi.mlb.com/api/{ver}/awards{awardId}{recipients}"),
    ("required_params", jstrs []),
    ("all_params", jstrs ["ver", "awardId", "recipients", "sportId",
      "leagueId", "season", "hydrate", "fields"]),
    ("notes", JVal.jstr "Call awards endpoint with no parameters to return a list of awardIds.")]),
  ("conferences", JVal.jobj [
    ("url", JVal.jstr "https://statsapi.mlb.com/api/{ver}/conferences"),
    ("required_params", jstrs []),
    ("all_params", jstrs ["ver", "conferenceId", "season", "fields"]),
    ("notes", JVal.jnull)]),
  ("divisions", JVal.jobj [
    ("url", JVal.jstr "https://statsapi.mlb.com/api/{ver}/divisions"),
    ("required_params", jstrs []),
    ("all_params", jstrs ["ver", "divisionId", "leagueId", "sportId", "season"]),
    ("notes", JVal.jstr "Call divisions endpoint with no parameters to return a list of divisions.")]),
  ("draft", JVal.jobj [
    ("url", JVal.jstr "https://statsapi.mlb.com/api/{ver}/draft{prospects}{year}{latest}"),
    ("required_params", jstrs []),
    ("all_params", jstrs ["ver", "prospects", "year", "latest", "limit",
      "fields", "round", "name", "school", "state", "country", "position",
      "teamId", "playerId", "bisPlayerId"]),
    ("notes", JVal.jstr "No query parameters are honored when \x27latest\x27 endpoint is queried (year is still required). Prospects and Latest cannot be used together.")]),
  ("game", JVal.jobj [
    ("url", JVal.jstr "https://statsapi.mlb.com/api/{ver}/game/{gamePk}/feed/live"),
    ("required_params", jstrs ["gamePk"]),
    ("all_params", jstrs ["ver", "gamePk", "timecode", "hydrate", "fields"]),
    ("notes", JVal.jnull)]),
  ("game_diff", JVal.jobj [
    ("url", JVal.jstr "https://statsapi.mlb.com/api/{ver}/game/{gamePk}/feed/live/diffPatch"),
    ("required_params", jstrs ["gamePk", "startTimecode", "endTimecode"]),
    ("all_params", jstrs ["ver", "gamePk", "startTimecode", "endTimecode"]),
    ("notes", JVal.jnull)]),
  ("game_timestamps", JVal.jobj [
    ("url", JVal.jstr "https://statsapi.mlb.com/api/{ver}/game/{gamePk}/feed/live/timestamps"),
    ("required_params", jstrs ["gamePk"]),
    ("all_params", jstrs ["ver", "gamePk"]),
    ("notes", JVal.jnull)]),
  ("game_changes", JVal.jobj [
    ("url", JVal.jstr "https://statsapi.mlb.com/api/{ver}/game/changes"),
    ("required_params", jstrs ["updatedSince"]),
    ("all_params", jstrs ["ver", "updatedSince", "sportId", "gameType",
      "season", "fields"]),
    ("notes", JVal.jnull)]),
  ("game_contextMetrics", JVal.jobj [
    ("url", JVal.jstr "https://statsapi.mlb.com/api/{ver}/game/{gamePk}/contextMetrics"),
    ("required_params", jstrs ["gamePk"]),
    ("all_params", jstrs ["ver", "gamePk", "timecode", "fields"]),
    ("notes", JVal.jnull)]),
  ("game_winProbability", JVal.jobj [
    ("url", JVal.jstr "https://statsapi.mlb.com/api/{ver}/game/{gamePk}/winProbability"),
    ("required_params", jstrs ["gamePk"]),
    ("all_params", jstrs ["ver", "gamePk", "timecode", "fields"]),
    ("notes", JVal.jstr "If you only want the current win probability for each team, try the game_contextMetrics endpoint instead.")]),
  ("game_boxscore", JVal.jobj [
    ("url", JVal.jstr "https://statsapi.mlb.com/api/{ver}/game/{gamePk}/boxscore"),
    ("required_params", jstrs ["gamePk"]),
    ("all_params", jstrs ["ver", "gamePk", "timecode", "fields"]),
    ("notes", JVal.jnull)]),
  ("game_content", JVal.jobj [
    ("url", JVal.jstr "https://statsapi.mlb.com/api/{ver}/game/{gamePk}/content"),
    ("required_params", jstrs ["gamePk"]),
    ("all_params", jstrs ["ver", "gamePk", "highlightLimit"]),
    ("notes", JVal.jnull)]),
  ("game_linescore", JVal.jobj [
    ("url", JVal.jstr "https://statsapi.mlb.com/api/{ver}/game/{gamePk}/linescore"),
    ("required_params", jstrs ["gamePk"]),
    ("all_params", jstrs ["ver", "gamePk", "timecode", "fields"]),
    ("notes", JVal.jnull)]),
  ("game_playByPlay", JVal.jobj [
    ("url", JVal.jstr "https://statsapi.mlb.com/api/{ver}/game/{gamePk}/playByPlay"),
    ("required_params", jstrs ["gamePk"]),
    ("all_params", jstrs ["ver", "gamePk", "timecode", "fields"]),
    ("notes", JVal.jnull)]),
  ("people", JVal.jobj [
    ("url", JVal.jstr "https://statsapi.mlb.com/api/{ver}/people"),
    ("required_params", jstrs ["personIds"]),
    ("all_params", jstrs ["ver", "personIds", "hydrate", "fields"]),
    ("notes", JVal.jnull)]),
  ("person", JVal.jobj [
    ("url", JVal.jstr "https://statsapi.mlb.com/api/{ver}/people/{personId}"),
    ("required_params", jstrs ["personId"]),
    ("all_params", jstrs ["ver", "personId", "hydrate", "fields"]),
    ("notes", JVal.jnull)]),
  ("person_stats", JVal.jobj [
    ("url", JVal.jstr "https://statsapi.mlb.com/api/{ver}/people/{personId}/stats/game/{gamePk}"),
    ("required_params", jstrs ["personId", "gamePk"]),
    ("all_params", jstrs ["ver", "personId", "gamePk", "fields"]),
    ("notes", JVal.jstr "Specify \x27current\x27 instead of a gamePk for a player\x27s current game stats.")]),
  ("schedule", JVal.jobj [
    ("url", JVal.jstr "https://statsapi.mlb.com/api/{ver}/schedule"),
    ("required_params", jstrs ["sportId or gamePk or gamePks"]),
    ("all_params", jstrs ["ver", "scheduleType", "eventTypes", "hydrate",
      "teamId", "leagueId", "sportId", "gamePk", "gamePks", "venueIds",
      "gameTypes", "date", "startDate", "endDate", "opponentId", "fields",
      "season"]),
    ("notes", JVal.jnull)]),
  ("standings", JVal.jobj [
    ("url", JVal.jstr "https://statsapi.mlb.com/api/{ver}/standings"),
    ("required_params", jstrs ["leagueId"]),
    ("all_params", jstrs ["ver", "leagueId", "season", "standingsTypes",
      "date", "hydrate", "fields"]),
    ("notes", JVal.jnull)]),
  ("stats", JVal.jobj [
    ("url", JVal.jstr "https://statsapi.mlb.com/api/{ver}/stats"),
    ("required_params", jstrs ["stats", "group"]),
    ("all_params", jstrs ["ver", "stats", "playerPool", "position", "teamId",
      "leagueId", "limit", "offset", "group", "gameType", "season",
      "sportIds", "sortStat", "order", "hydrate", "fields", "personId",
      "metrics", "startDate", "endDate"]),
    ("notes", JVal.jstr "If no limit is specified, the response will be limited to 50 records.")]),
  ("stats_leaders", JVal.jobj [
    ("url", JVal.jstr "https://statsapi.mlb.com/api/{ver}/stats/leaders"),
    ("required_params", jstrs ["leaderCategories"]),
    ("all_params", jstrs ["ver", "leaderCategories", "playerPool",
      "leaderGameTypes", "statGroup", "season", "leagueId", "sportId",
      "hydrate", "limit", "fields", "statType"]),
    ("notes", JVal.jstr "If excluding season parameter to get all time leaders, include statType=statsSingleSeason or you will likely not get any results.")]),
  ("teams", JVal.jobj [
    ("url", JVal.jstr "https://statsapi.mlb.com/api/{ver}/teams"),
    ("required_params", jstrs []),
    ("all_params", jstrs ["ver", "season", "activeStatus", "leagueIds",
      "sportId", "sportIds", "gameType", "hydrate", "fields"]),
    ("notes", JVal.jnull)]),
  ("team", JVal.jobj [
    ("url", JVal.jstr "https://statsapi.mlb.com/api/{ver}/teams/{teamId}"),
    ("required_params", jstrs ["teamId"]),
    ("all_params", jstrs ["ver", "teamId", "season", "sportId", "hydrate",
      "fields"]),
    ("notes", JVal.jnull)]),
  ("team_roster", JVal.jobj [
    ("url", JVal.jstr "https://statsapi.mlb.com/api/{ver}/teams/{teamId}/roster"),
    ("required_params", jstrs ["teamId"]),
    ("all_params", jstrs ["ver", "teamId", "rosterType", "season", "date",
      "hydrate", "fields"]),
    ("notes", JVal.jnull)]),
  ("team_leaders", JVal.jobj [
    ("url", JVal.jstr "https://statsapi.mlb.com/api/{ver}/teams/{teamId}/leaders"),
    ("required_params", jstrs ["teamId", "leaderCategories", "season"]),
    ("all_params", jstrs ["ver", "teamId", "leaderCategories", "season",
      "leaderGameTypes", "hydrate", "limit", "fields"]),
    ("notes", JVal.jnull)]),
  ("venues", JVal.jobj [
    ("url", JVal.jstr "https://statsapi.mlb.com/api/{ver}/venues"),
    ("required_params", jstrs ["venueIds"]),
    ("all_params", jstrs ["ver", "venueIds", "season", "hydrate", "fields"]),
    ("notes", JVal.jnull)])]

/-- `get_available_endpoints`: a pure constant; the function body only
builds literals, so its defensive `except` branch is unreachable. -/
def get_available_endpoints : JVal :=
  JVal.jobj [
    ("endpoints", endpointsTable),
    ("usage_note", JVal.jstr "Use these endpoints with the get_stats tool by specifying the endpoint name and required parameters"),
    ("example", JVal.jobj [("endpoint", JVal.jstr "teams"),
      ("params", JVal.jobj [("sportId", JVal.jint 1)])])]

end Tools

namespace Tools

/-- Python `line.strip("[]")`: remove leading and trailing square-bracket
characters. -/
def stripBrackets (s : String) : String :=
  String.mk (((s.data.dropWhile (fun c => c == '[' || c == ']')).reverse.dropWhile
    (fun c => c == '[' || c == ']')).reverse)

/-- Python `line.split(":")[1]`: the text between the first and second
colon; `none` models the IndexError raised when the line has no colon. -/
def secondColonField (line : String) : Option String :=
  match line.splitOn ":" with
  | _ :: second :: _ => some second
  | _ => none

/-- The parameter-list pipeline of `get_notes`:
`line.split(":")[1].strip().strip("[]").replace("\x27", "").split(", ")`
(before the `[p for p in params if p]` filter). -/
def rawParams (line : String) : Option (List String) :=
  (secondColonField line).map
    (fun f => (((stripBrackets f.trim).replace "\x27" "").splitOn ", "))

/-- The mutable `result` fields that the `get_notes` line loop updates. -/
structure NotesAcc where
  required_params : List String
  path_params : List String
  query_params : List String
  hints : String
deriving DecidableEq

/-- One iteration of the `for line in lines` loop of `get_notes`; an
`Except.error` models the IndexError on a marker line without a colon,
which the enclosing handler turns into an error mapping. -/
def processLine (acc : NotesAcc) (raw : String) : Except String NotesAcc :=
  let line := raw.trim
  if line = "" then Except.ok acc
  else if strHasSub line "All path parameters:" then
    match rawParams line with
    | none => Except.error "list index out of range"
    | some ps => Except.ok { acc with path_params := ps.filter (fun p => ¬ p = "") }
  else if strHasSub line "All query parameters:" then
    match rawParams line with
    | none => Except.error "list index out of range"
    | some ps => Except.ok { acc with query_params := ps.filter (fun p => ¬ p = "") }
  else if strHasSub line "Required path parameters" then
    match rawParams line with
    | none => Except.error "list index out of range"
    | some ps =>
      Except.ok { acc with
        required_params := acc.required_params ++ ps.filter (fun p => ¬ p = "") }
  else if strHasSub line "Required query parameters:" then
    match rawParams line with
    | none => Except.error "list index out of range"
    | some ps =>
      match ps with
      | [] => Except.ok acc
      | p0 :: _ =>
        if p0 = "None" then Except.ok acc
        else Except.ok { acc with
          required_params := acc.required_params ++ ps.filter (fun p => ¬ p = "") }
  else if line.startsWith "The hydrate function" || line.startsWith "Call the endpoint" then
    Except.ok { acc with hints := acc.hints ++ line ++ "\n" }
  else Except.ok acc

/-- `get_notes`: fetch the notes text for an endpoint and parse it into the
structured mapping; any raise (from the provider or from the parsing loop)
is caught and reported as an error mapping carrying the endpoint. -/
def get_notes (endpoint : String)
    (notes : String → Except String String) : JVal :=
  match notes endpoint with
  | Except.error e =>
    JVal.jobj [("error", JVal.jstr e), ("endpoint", JVal.jstr endpoint)]
  | Except.ok notes_text =>
    match (notes_text.splitOn "\n").foldlM processLine
        (NotesAcc.mk [] [] [] "") with
    | Except.error e =>
      JVal.jobj [("error", JVal.jstr e), ("endpoint", JVal.jstr endpoint)]
    | Except.ok acc =>
      JVal.jobj [
        ("endpoint", JVal.jstr endpoint),
        ("required_params", jstrs acc.required_params),
        ("all_params", jstrs (acc.path_params ++ acc.query_params)),
        ("hints", JVal.jstr acc.hints),
        ("path_params", jstrs acc.path_params),
        ("query_params", jstrs acc.query_params)]

/-- `get_game_scoring_play_data`: passthrough with an error mapping carrying
the game id. -/
def get_game_scoring_play_data (game_id : Int)
    (provider : Int → Except String JVal) : JVal :=
  match provider game_id with
  | Except.ok result => result
  | Except.error e =>
    JVal.jobj [("error", JVal.jstr e), ("game_id", JVal.jint game_id)]

end Tools

namespace Server

/-- `get_stats`: raw passthrough to `statsapi.get(endpoint, params)`. -/
def get_stats (endpoint : String) (params : JVal)
    (get : String → JVal → Except String JVal) : JVal :=
  match get endpoint params with
  | Except.ok result => result
  | Except.error e => JVal.jobj [("error", JVal.jstr e), ("params", params)]

/-- The `kwargs` dictionary built by `get_schedule` (keys inserted only for
supplied values; `sportId` only when it differs from 1). -/
def scheduleKwargs (date : Option String) (team_id : Option Int)
    (sport_id : Int) (game_type : Option String) : List (String × JVal) :=
  (match date with | some d => [("date", JVal.jstr d)] | none => []) ++
  (match team_id with | some t => [("team", JVal.jint t)] | none => []) ++
  (if sport_id ≠ 1 then [("sportId", JVal.jint sport_id)] else []) ++
  (match game_type with | some g => [("gameType", JVal.jstr g)] | none => [])

/-- `get_schedule`. -/
def get_schedule (date : Option String) (team_id : Option Int)
    (sport_id : Int) (game_type : Option String)
    (schedule : List (String × JVal) → Except String JVal) : JVal :=
  match schedule (scheduleKwargs date team_id sport_id game_type) with
  | Except.ok result => result
  | Except.error e =>
    JVal.jobj [("error", JVal.jstr e),
               ("params_sent", JVal.jobj (scheduleKwargs date team_id sport_id game_type))]

/-- The `kwargs` dictionary built by `get_player_stats`. -/
def playerStatsKwargs (player_id : Int) (group : String) (season : Option Int)
    (stats : String) : List (String × JVal) :=
  [("personId", JVal.jint player_id), ("group", JVal.jstr group),
   ("type", JVal.jstr stats)] ++
  (match season with | some s => [("season", JVal.jint s)] | none => [])

/-- `get_player_stats`. -/
def get_player_stats (player_id : Int) (group : String) (season : Option Int)
    (stats : String)
    (player_stat_data : List (String × JVal) → Except String JVal) : JVal :=
  match player_stat_data (playerStatsKwargs player_id group season stats) with
  | Except.ok result => result
  | Except.error e =>
    JVal.jobj [("error", JVal.jstr e),
               ("params_sent", JVal.jobj (playerStatsKwargs player_id group season stats))]

/-- The `kwargs` dictionary built by `get_standings`. -/
def standingsKwargs (league_id division_id season : Option Int)
    (standings_types : String) : List (String × JVal) :=
  [("standingsTypes", JVal.jstr standings_types)] ++
  (match league_id with | some l => [("leagueId", JVal.jint l)] | none => []) ++
  (match division_id with | some d => [("divisionId", JVal.jint d)] | none => []) ++
  (match season with | some s => [("season", JVal.jint s)] | none => [])

/-- `get_standings`. -/
def get_standings (league_id division_id season : Option Int)
    (standings_types : String)
    (standings_data : List (String × JVal) → Except String JVal) : JVal :=
  match standings_data (standingsKwargs league_id division_id season standings_types) with
  | Except.ok result => result
  | Except.error e =>
    JVal.jobj [("error", JVal.jstr e),
               ("params_sent", JVal.jobj (standingsKwargs league_id division_id season standings_types))]

/-- Python `10 if limit is None else limit` in `get_team_leaders`. -/
def limitOr10 : Option Int → Int
  | none => 10
  | some l => l

/-- `get_team_leaders`: the provider is called with the team, the category,
`limit=10 if limit is None else limit` and the season; `leader_game_type`
is accepted but never forwarded and never placed in the result. -/
def get_team_leaders (team_id : Int) (leader_category : String)
    (season : Option Int) (leader_game_type : String) (limit : Option Int)
    (team_leaders : Int → String → Int → Option Int → Except String String) :
    JVal :=
  match team_leaders team_id leader_category (limitOr10 limit) season with
  | Except.ok leaders_text =>
    JVal.jobj [("teamId", JVal.jint team_id),
               ("leaderCategory", JVal.jstr leader_category),
               ("season", jOptInt season),
               ("results", JVal.jstr leaders_text),
               ("teamLeaders", JVal.jbool true)]
  | Except.error e =>
    JVal.jobj [("error", JVal.jstr e), ("team_id", JVal.jint team_id),
               ("leader_category", JVal.jstr leader_category)]

/-- `lookup_player`: the provider's result list (possibly empty) is wrapped
under `people`; a raise becomes an error mapping carrying the input name. -/
def lookup_player (name : String)
    (lookup : String → Except String JVal) : JVal :=
  match lookup name with
  | Except.ok result => JVal.jobj [("people", result)]
  | Except.error e =>
    JVal.jobj [("error", JVal.jstr e), ("name", JVal.jstr name)]

/-- The `kwargs` dictionary built by `get_boxscore` (Python truthiness:
`None` and the empty string both omit the timecode). -/
def boxscoreKwargs (timecode : Option String) : List (String × JVal) :=
  match timecode with
  | some t => if t = "" then [] else [("timecode", JVal.jstr t)]
  | none => []

/-- `get_boxscore`. -/
def get_boxscore (game_id : Int) (timecode : Option String)
    (boxscore : Int → List (String × JVal) → Except String String) : JVal :=
  match boxscore game_id (boxscoreKwargs timecode) with
  | Except.ok boxscore_text =>
    JVal.jobj [("game_id", JVal.jint game_id),
               ("boxscore", JVal.jstr boxscore_text),
               ("success", JVal.jbool true)]
  | Except.error e =>
    JVal.jobj [("error", JVal.jstr e), ("game_id", JVal.jint game_id)]

/-- The `kwargs` dictionary built by `get_game_pace` (always `sportId: 1`). -/
def gamePaceKwargs (season team_id : Option Int) : List (String × JVal) :=
  [("sportId", JVal.jint 1)] ++
  (match season with | some s => [("season", JVal.jint s)] | none => []) ++
  (match team_id with | some t => [("teamId", JVal.jint t)] | none => [])

/-- `get_game_pace`. -/
def get_game_pace (season team_id : Option Int)
    (game_pace_data : List (String × JVal) → Except String JVal) : JVal :=
  match game_pace_data (gamePaceKwargs season team_id) with
  | Except.ok result => result
  | Except.error e =>
    JVal.jobj [("error", JVal.jstr e),
               ("params_sent", JVal.jobj (gamePaceKwargs season team_id))]

/-- `get_meta`: `statsapi.meta` is called with `fields` only when it is
truthy (Python: `if fields:`); the error mapping echoes the original
`type_name` and `fields` values. -/
def get_meta (type_name : String) (fields : Option String)
    (meta : String → Option String → Except String JVal) : JVal :=
  match (match fields with
         | some f => if f = "" then meta type_name none else meta type_name (some f)
         | none => meta type_name none) with
  | Except.ok result => result
  | Except.error e =>
    JVal.jobj [("error", JVal.jstr e), ("type", JVal.jstr type_name),
               ("fields", jOptStr fields)]


/-- The literal `endpoints` dictionary of `get_available_endpoints` in
server.py. -/
def endpointsTable : JVal := JVal.jobj [
  ("attendance", JVal.jobj [
    ("url", JVal.jstr "https://statsapi.mlb.com/api/{ver}/attendance"),
    ("required_params", jstrs ["teamId", "leagueId", "leagueListId"]),
    ("all_params", jstrs ["ver", "teamId", "leagueId", "season", "date",
      "leagueListId", "gameType", "fields"]),
    ("notes", JVal.jnull)]),
  ("awards", JVal.jobj [
    ("url", JVal.jstr "https://statsapi.mlb.com/api/{ver}/awards{awardId}{recipients}"),
    ("required_params", jstrs []),
    ("all_params", jstrs ["ver", "awardId", "recipients", "sportId",
      "leagueId", "season", "hydrate", "fields"]),
    ("notes", JVal.jstr "Call awards endpoint with no parameters to return a list of awardIds.")]),
  ("conferences", JVal.jobj [
    ("url", JVal.jstr "https://statsapi.mlb.com/api/{ver}/conferences"),
    ("required_params", jstrs []),
    ("all_params", jstrs ["ver", "conferenceId", "season", "fields"]),
    ("notes", JVal.jnull)]),
  ("divisions", JVal.jobj [
    ("url", JVal.jstr "https://statsapi.mlb.com/api/{ver}/divisions"),
    ("required_params", jstrs []),
    ("all_params", jstrs ["ver", "divisionId", "leagueId", "sportId", "season"]),
    ("notes", JVal.jstr "Call divisions endpoint with no parameters to return a list of divisions.")]),
  ("draft", JVal.jobj [
    ("url", JVal.jstr "https://statsapi.mlb.com/api/{ver}/draft{prospects}{year}{latest}"),
    ("required_params", jstrs []),
    ("all_params", jstrs ["ver", "prospects", "year", "latest", "limit",
      "fields", "round", "name", "school", "state", "country", "position",
      "teamId", "playerId", "bisPlayerId"]),
    ("notes", JVal.jstr "No query parameters are honored when \x27latest\x27 endpoint is queried (year is still required). Prospects and Latest cannot be used together.")]),
  ("game", JVal.jobj [
    ("url", JVal.jstr "https://statsapi.mlb.com/api/{ver}/game/{gamePk}/feed/live"),
    ("required_params", jstrs ["gamePk"]),
    ("all_params", jstrs ["ver", "gamePk", "timecode", "hydrate", "fields"]),
    ("notes", JVal.jnull)]),
  ("game_diff", JVal.jobj [
    ("url", JVal.jstr "https://statsapi.mlb.com/api/{ver}/game/{gamePk}/feed/live/diffPatch"),
    ("required_params", jstrs ["gamePk", "startTimecode", "endTimecode"]),
    ("all_params", jstrs ["ver", "gamePk", "startTimecode", "endTimecode"]),
    ("notes", JVal.jnull)]),
  ("game_timestamps", JVal.jobj [
    ("url", JVal.jstr "https://statsapi.mlb.com/api/{ver}/game/{gamePk}/feed/live/timestamps"),
    ("required_params", jstrs ["gamePk"]),
    ("all_params", jstrs ["ver", "gamePk"]),
    ("notes", JVal.jnull)]),
  ("game_changes", JVal.jobj [
    ("url", JVal.jstr "https://statsapi.mlb.com/api/{ver}/game/changes"),
    ("required_params", jstrs ["updatedSince"]),
    ("all_params", jstrs ["ver", "updatedSince", "sportId", "gameType",
      "season", "fields"]),
    ("notes", JVal.jnull)]),
  ("game_contextMetrics", JVal.jobj [
    ("url", JVal.jstr "https://statsapi.mlb.com/api/{ver}/game/{gamePk}/contextMetrics"),
    ("required_params", jstrs ["gamePk"]),
    ("all_params", jstrs ["ver", "gamePk", "timecode", "fields"]),
    ("notes", JVal.jnull)]),
  ("game_winProbability", JVal.jobj [
    ("url", JVal.jstr "https://statsapi.mlb.com/api/{ver}/game/{gamePk}/winProbability"),
    ("required_params", jstrs ["gamePk"]),
    ("all_params", jstrs ["ver", "gamePk", "timecode", "fields"]),
    ("notes", JVal.jstr "If you only want the current win probability for each team, try the game_contextMetrics endpoint instead.")]),
  ("game_boxscore", JVal.jobj [
    ("url", JVal.jstr "https://statsapi.mlb.com/api/{ver}/game/{gamePk}/boxscore"),
    ("required_params", jstrs ["gamePk"]),
    ("all_params", jstrs ["ver", "gamePk", "timecode", "fields"]),
    ("notes", JVal.jnull)]),
  ("game_content", JVal.jobj [
    ("url", JVal.jstr "https://statsapi.mlb.com/api/{ver}/game/{gamePk}/content"),
    ("required_params", jstrs ["gamePk"]),
    ("all_params", jstrs ["ver", "gamePk", "highlightLimit"]),
    ("notes", JVal.jnull)]),
  ("game_linescore", JVal.jobj [
    ("url", JVal.jstr "https://statsapi.mlb.com/api/{ver}/game/{gamePk}/linescore"),
    ("required_params", jstrs ["gamePk"]),
    ("all_params", jstrs ["ver", "gamePk", "timecode", "fields"]),
    ("notes", JVal.jnull)]),
  ("game_playByPlay", JVal.jobj [
    ("url", JVal.jstr "https://statsapi.mlb.com/api/{ver}/game/{gamePk}/playByPlay"),
    ("required_params", jstrs ["gamePk"]),
    ("all_params", jstrs ["ver", "gamePk", "timecode", "fields"]),
    ("notes", JVal.jnull)]),
  ("people", JVal.jobj [
    ("url", JVal.jstr "https://statsapi.mlb.com/api/{ver}/people"),
    ("required_params", jstrs ["personIds"]),
    ("all_params", jstrs ["ver", "personIds", "hydrate", "fields"]),
    ("notes", JVal.jnull)]),
  ("person", JVal.jobj [
    ("url", JVal.jstr "https://statsapi.mlb.com/api/{ver}/people/{personId}"),
    ("required_params", jstrs ["personId"]),
    ("all_params", jstrs ["ver", "personId", "hydrate", "fields"]),
    ("notes", JVal.jnull)]),
  ("person_stats", JVal.jobj [
    ("url", JVal.jstr "https://statsapi.mlb.com/api/{ver}/people/{personId}/stats/game/{gamePk}"),
    ("required_params", jstrs ["personId", "gamePk"]),
    ("all_params", jstrs ["ver", "personId", "gamePk", "fields"]),
    ("notes", JVal.jstr "Specify \x27current\x27 instead of a gamePk for a player\x27s current game stats.")]),
  ("schedule", JVal.jobj [
    ("url", JVal.jstr "https://statsapi.mlb.com/api/{ver}/schedule"),
    ("required_params", jstrs ["sportId or gamePk or gamePks"]),
    ("all_params", jstrs ["ver", "scheduleType", "eventTypes", "hydrate",
      "teamId", "leagueId", "sportId", "gamePk", "gamePks", "venueIds",
      "gameTypes", "date", "startDate", "endDate", "opponentId", "fields",
      "season"]),
    ("notes", JVal.jnull)]),
  ("standings", JVal.jobj [
    ("url", JVal.jstr "https://statsapi.mlb.com/api/{ver}/standings"),
    ("required_params", jstrs ["leagueId"]),
    ("all_params", jstrs ["ver", "leagueId", "season", "standingsTypes",
      "date", "hydrate", "fields"]),
    ("notes", JVal.jnull)]),
  ("stats", JVal.jobj [
    ("url", JVal.jstr "https://statsapi.mlb.com/api/{ver}/stats"),
    ("required_params", jstrs ["stats", "group"]),
    ("all_params", jstrs ["ver", "stats", "playerPool", "position", "teamId",
      "leagueId", "limit", "offset", "group", "gameType", "season",
      "sportIds", "sortStat", "order", "hydrate", "fields", "personId",
      "metrics", "startDate", "endDate"]),
    ("notes", JVal.jstr "If no limit is specified, the response will be limited to 50 records.")]),
  ("stats_leaders", JVal.jobj [
    ("url", JVal.jstr "https://statsapi.mlb.com/api/{ver}/stats/leaders"),
    ("required_params", jstrs ["leaderCategories"]),
    ("all_params", jstrs ["ver", "leaderCategories", "playerPool",
      "leaderGameTypes", "statGroup", "season", "leagueId", "sportId",
      "hydrate", "limit", "fields", "statType"]),
    ("notes", JVal.jstr "If excluding season parameter to get all time leaders, include statType=statsSingleSeason or you will likely not get any results.")]),
  ("teams", JVal.jobj [
    ("url", JVal.jstr "https://statsapi.mlb.com/api/{ver}/teams"),
    ("required_params", jstrs []),
    ("all_params", jstrs ["ver", "season", "activeStatus", "leagueIds",
      "sportId", "sportIds", "gameType", "hydrate", "fields"]),
    ("notes", JVal.jnull)]),
  ("team", JVal.jobj [
    ("url", JVal.jstr "https://statsapi.mlb.com/api/{ver}/teams/{teamId}"),
    ("required_params", jstrs ["teamId"]),
    ("all_params", jstrs ["ver", "teamId", "season", "sportId", "hydrate",
      "fields"]),
    ("notes", JVal.jnull)]),
  ("team_roster", JVal.jobj [
    ("url", JVal.jstr "https://statsapi.mlb.com/api/{ver}/teams/{teamId}/roster"),
    ("required_params", jstrs ["teamId"]),
    ("all_params", jstrs ["ver", "teamId", "rosterType", "season", "date",
      "hydrate", "fields"]),
    ("notes", JVal.jnull)]),
  ("team_leaders", JVal.jobj [
    ("url", JVal.jstr "https://statsapi.mlb.com/api/{ver}/teams/{teamId}/leaders"),
    ("required_params", jstrs ["teamId", "leaderCategories", "season"]),
    ("all_params", jstrs ["ver", "teamId", "leaderCategories", "season",
      "leaderGameTypes", "hydrate", "limit", "fields"]),
    ("notes", JVal.jnull)]),
  ("venues", JVal.jobj [
    ("url", JVal.jstr "https://statsapi.mlb.com/api/{ver}/venues"),
    ("required_params", jstrs ["venueIds"]),
    ("all_params", jstrs ["ver", "venueIds", "season", "hydrate", "fields"]),
    ("notes", JVal.jnull)])]

/-- `get_available_endpoints`: a pure constant; the function body only
builds literals, so its defensive `except` branch is unreachable. -/
def get_available_endpoints : JVal :=
  JVal.jobj [
    ("endpoints", endpointsTable),
    ("usage_note", JVal.jstr "Use these endpoints with the get_stats tool by specifying the endpoint name and required parameters"),
    ("example", JVal.jobj [("endpoint", JVal.jstr "teams"),
      ("params", JVal.jobj [("sportId", JVal.jint 1)])])]


end Server

/-- A concrete two-row, two-column frame whose second row holds an
empty-string cell and whose first row holds a null cell; used to
instantiate the tabular-normalization theorems. -/
def df0 : DataFrame :=
  DataFrame.mk ["player_name", "launch_speed"]
    [[Cell.cstr "judge", Cell.null], [Cell.cstr "", Cell.cnum 101]]

/-- Every statcast tool body raises `No statcast data found`, wrapped with
the operation's message head, when the provider returns a zero-row frame. -/
theorem statcastResult_empty (errHead : String) (df : DataFrame)
    (h : df.rows.length = 0) :
    StatcastTools.statcastResult errHead (Except.ok df)
      = Except.error (errHead ++ "No statcast data found") := by
  simp [StatcastTools.statcastResult, h]

/-- C1 (counterexample): with the provider raising `upstream failure`,
`get_statcast_data` neither returns an error-keyed mapping nor raises a
message containing `Error in get_statcast_data`: it raises
`Error retrieving Statcast data: upstream failure`. -/
theorem claim1_counterexample :
    StatcastTools.get_statcast_data (some "2024-07-01") none none true true
      "2024-06-30" (fun _ _ _ _ _ => Except.error "upstream failure")
      = Except.error "Error retrieving Statcast data: upstream failure"
    ∧ strHasSub "Error retrieving Statcast data: upstream failure"
        "Error in get_statcast_data" = false :=
  ⟨rfl, by decide⟩

/-- C1 (amended): if the underlying provider call raises, every adapter in
mlb_statsapi_tools.py returns a mapping containing an `error` key, and
every adapter in statcast_tools.py raises exactly one wrapped error whose
message is its operation-specific `Error retrieving ...` head followed by
the original exception text; no provider exception escapes in any other
form.  (`get_available_endpoints` performs no provider call.) -/
theorem claim1_theorem :
    (∀ (endpoint : String) (params : JVal) (e : String),
      (Tools.get_stats endpoint params
        (fun _ _ => Except.error e)).hasKey "error" = true)
  ∧ (∀ (date : Option String) (team_id : Option Int) (sport_id : Int)
       (game_type : Option String) (e : String),
      (Tools.get_schedule date team_id sport_id game_type
        (fun _ => Except.error e)).hasKey "error" = true)
  ∧ (∀ (player_id : Int) (group : String) (season : Option Int)
       (stats : String) (e : String),
      (Tools.get_player_stats player_id group season stats
        (fun _ => Except.error e)).hasKey "error" = true)
  ∧ (∀ (league_id division_id season : Option Int) (standings_types : String)
       (e : String),
      (Tools.get_standings league_id division_id season standings_types
        (fun _ => Except.error e)).hasKey "error" = true)
  ∧ (∀ (team_id : Int) (leader_category : String) (season : Option Int)
       (leader_game_type : String) (limit : Option Int) (e : String),
      (Tools.get_team_leaders team_id leader_category season leader_game_type
        limit (fun _ _ _ _ => Except.error e)).hasKey "error" = true)
  ∧ (∀ (name e : String),
      (Tools.lookup_player name (fun _ => Except.error e)).hasKey "error" = true)
  ∧ (∀ (game_id : Int) (timecode : Option String) (e : String),
      (Tools.get_boxscore game_id timecode
        (fun _ _ => Except.error e)).hasKey "error" = true)
  ∧ (∀ (season team_id : Option Int) (e : String),
      (Tools.get_game_pace season team_id
        (fun _ => Except.error e)).hasKey "error" = true)
  ∧ (∀ (type_name : String) (fields : Option String) (e : String),
      (Tools.get_meta type_name fields
        (fun _ _ => Except.error e)).hasKey "error" = true)
  ∧ (∀ (endpoint e : String),
      (Tools.get_notes endpoint (fun _ => Except.error e)).hasKey "error" = true)
  ∧ (∀ (game_id : Int) (e : String),
      (Tools.get_game_scoring_play_data game_id
        (fun _ => Except.error e)).hasKey "error" = true)
  ∧ (∀ (start_dt end_dt team : Option String) (verbose parallel : Bool)
       (yesterday e : String),
      StatcastTools.get_statcast_data start_dt end_dt team verbose parallel
        yesterday (fun _ _ _ _ _ => Except.error e)
      = Except.error ("Error retrieving Statcast data: " ++ e))
  ∧ (∀ (player_id : Int) (start_dt end_dt : Option String) (yesterday e : String),
      StatcastTools.get_statcast_batter_data player_id start_dt end_dt
        yesterday (fun _ _ _ => Except.error e)
      = Except.error ("Error retrieving Statcast data for batter "
          ++ toString player_id ++ ": " ++ e))
  ∧ (∀ (player_id : Int) (start_dt end_dt : Option String) (yesterday e : String),
      StatcastTools.get_statcast_pitcher_data player_id start_dt end_dt
        yesterday (fun _ _ _ => Except.error e)
      = Except.error ("Error retrieving Statcast data for pitcher "
          ++ toString player_id ++ ": " ++ e))
  ∧ (∀ (year : Int) (minBBE : Option Int) (e : String),
      StatcastTools.get_statcast_batter_exitvelo_barrels year minBBE
        (fun _ _ => Except.error e)
      = Except.error ("Error retrieving batter exit velocity data for "
          ++ toString year ++ ": " ++ e))
  ∧ (∀ (year : Int) (minBBE : Option Int) (e : String),
      StatcastTools.get_statcast_pitcher_exitvelo_barrels year minBBE
        (fun _ _ => Except.error e)
      = Except.error ("Error retrieving pitcher exit velocity data for "
          ++ toString year ++ ": " ++ e))
  ∧ (∀ (year : Int) (minPA : Option Int) (e : String),
      StatcastTools.get_statcast_batter_expected_stats year minPA
        (fun _ _ => Except.error e)
      = Except.error ("Error retrieving batter expected stats for "
          ++ toString year ++ ": " ++ e))
  ∧ (∀ (year : Int) (minPA : Option Int) (e : String),
      StatcastTools.get_statcast_pitcher_expected_stats year minPA
        (fun _ _ => Except.error e)
      = Except.error ("Error retrieving pitcher expected stats for "
          ++ toString year ++ ": " ++ e))
  ∧ (∀ (year : Int) (e : String),
      StatcastTools.get_statcast_batter_percentile_ranks year
        (fun _ => Except.error e)
      = Except.error ("Error retrieving batter percentile ranks for "
          ++ toString year ++ ": " ++ e))
  ∧ (∀ (year : Int) (e : String),
      StatcastTools.get_statcast_pitcher_percentile_ranks year
        (fun _ => Except.error e)
      = Except.error ("Error retrieving pitcher percentile ranks for "
          ++ toString year ++ ": " ++ e))
  ∧ (∀ (year minPA : Int) (e : String),
      StatcastTools.get_statcast_batter_pitch_arsenal year minPA
        (fun _ _ => Except.error e)
      = Except.error ("Error retrieving batter pitch arsenal data for "
          ++ toString year ++ ": " ++ e))
  ∧ (∀ (year : Int) (minP : Option Int) (arsenal_type : String) (e : String),
      StatcastTools.get_statcast_pitcher_pitch_arsenal year minP arsenal_type
        (fun _ _ _ => Except.error e)
      = Except.error ("Error retrieving pitcher pitch arsenal data for "
          ++ toString year ++ ": " ++ e))
  ∧ (∀ (game_pk : Int) (e : String),
      StatcastTools.get_statcast_single_game game_pk
        (fun _ => Except.error e)
      = Except.error ("Error retrieving Statcast data for game "
          ++ toString game_pk ++ ": " ++ e)) := by
  repeat' apply And.intro
  all_goals try (intros; rfl)
  intro type_name fields e
  cases fields with
  | none => rfl
  | some f =>
    by_cases h : f = ""
    · simp only [Tools.get_meta, if_pos h]; rfl
    · simp only [Tools.get_meta, if_neg h]; rfl

/-- C2: every statcast tabular-fetch operation, given a provider response
with zero rows, raises (its message head followed by
`No statcast data found`) instead of returning the empty-success mapping
`{"data": [], "count": 0}`. -/
theorem claim2_theorem (df : DataFrame) (hdf : df.rows = []) :
    (∀ (start_dt end_dt team : Option String) (verbose parallel : Bool)
       (yesterday : String),
      StatcastTools.get_statcast_data start_dt end_dt team verbose parallel
        yesterday (fun _ _ _ _ _ => Except.ok df)
      = Except.error ("Error retrieving Statcast data: "
          ++ "No statcast data found"))
  ∧ (∀ (player_id : Int) (start_dt end_dt : Option String) (yesterday : String),
      StatcastTools.get_statcast_batter_data player_id start_dt end_dt
        yesterday (fun _ _ _ => Except.ok df)
      = Except.error ("Error retrieving Statcast data for batter "
          ++ toString player_id ++ ": " ++ "No statcast data found"))
  ∧ (∀ (player_id : Int) (start_dt end_dt : Option String) (yesterday : String),
      StatcastTools.get_statcast_pitcher_data player_id start_dt end_dt
        yesterday (fun _ _ _ => Except.ok df)
      = Except.error ("Error retrieving Statcast data for pitcher "
          ++ toString player_id ++ ": " ++ "No statcast data found"))
  ∧ (∀ (year : Int) (minBBE : Option Int),
      StatcastTools.get_statcast_batter_exitvelo_barrels year minBBE
        (fun _ _ => Except.ok df)
      = Except.error ("Error retrieving batter exit velocity data for "
          ++ toString year ++ ": " ++ "No statcast data found"))
  ∧ (∀ (year : Int) (minBBE : Option Int),
      StatcastTools.get_statcast_pitcher_exitvelo_barrels year minBBE
        (fun _ _ => Except.ok df)
      = Except.error ("Error retrieving pitcher exit velocity data for "
          ++ toString year ++ ": " ++ "No statcast data found"))
  ∧ (∀ (year : Int) (minPA : Option Int),
      StatcastTools.get_statcast_batter_expected_stats year minPA
        (fun _ _ => Except.ok df)
      = Except.error ("Error retrieving batter expected stats for "
          ++ toString year ++ ": " ++ "No statcast data found"))
  ∧ (∀ (year : Int) (minPA : Option Int),
      StatcastTools.get_statcast_pitcher_expected_stats year minPA
        (fun _ _ => Except.ok df)
      = Except.error ("Error retrieving pitcher expected stats for "
          ++ toString year ++ ": " ++ "No statcast data found"))
  ∧ (∀ year : Int,
      StatcastTools.get_statcast_batter_percentile_ranks year
        (fun _ => Except.ok df)
      = Except.error ("Error retrieving batter percentile ranks for "
          ++ toString year ++ ": " ++ "No statcast data found"))
  ∧ (∀ year : Int,
      StatcastTools.get_statcast_pitcher_percentile_ranks year
        (fun _ => Except.ok df)
      = Except.error ("Error retrieving pitcher percentile ranks for "
          ++ toString year ++ ": " ++ "No statcast data found"))
  ∧ (∀ year minPA : Int,
      StatcastTools.get_statcast_batter_pitch_arsenal year minPA
        (fun _ _ => Except.ok df)
      = Except.error ("Error retrieving batter pitch arsenal data for "
          ++ toString year ++ ": " ++ "No statcast data found"))
  ∧ (∀ (year : Int) (minP : Option Int) (arsenal_type : String),
      StatcastTools.get_statcast_pitcher_pitch_arsenal year minP arsenal_type
        (fun _ _ _ => Except.ok df)
      = Except.error ("Error retrieving pitcher pitch arsenal data for "
          ++ toString year ++ ": " ++ "No statcast data found"))
  ∧ (∀ game_pk : Int,
      StatcastTools.get_statcast_single_game game_pk
        (fun _ => Except.ok df)
      = Except.error ("Error retrieving Statcast data for game "
          ++ toString game_pk ++ ": " ++ "No statcast data found")) := by
  have hl : df.rows.length = 0 := by rw [hdf]; rfl
  repeat' apply And.intro
  all_goals intros
  all_goals exact statcastResult_empty _ df hl

/-- C2 (witness): a concrete zero-row frame makes `get_statcast_data`
raise rather than return `{"data": [], "count": 0}`. -/
theorem claim2_witness :
    (DataFrame.mk ["pitch_type"] []).rows = []
    ∧ StatcastTools.get_statcast_data none none none true true "2024-06-30"
        (fun _ _ _ _ _ => Except.ok (DataFrame.mk ["pitch_type"] []))
      = Except.error ("Error retrieving Statcast data: "
          ++ "No statcast data found") :=
  ⟨rfl, (claim2_theorem (DataFrame.mk ["pitch_type"] []) rfl).1
    none none none true true "2024-06-30"⟩

/-- C3: for every non-empty frame, `_convert_dataframe_to_dict` produces
one record per input row (each row's cells normalized by `cellClean` and
keyed by the column names in order), a `count` equal to the number of
records, and `columns` equal to the input column list in original order;
`cellClean` sends a null cell and an empty-string cell to the same absent
marker, null. -/
theorem claim3_theorem (df : DataFrame) (h1 : df.rows ≠ [])
    (h2 : df.columns ≠ []) :
    convert_dataframe_to_dict (some df)
      = JVal.jobj [("data", JVal.jlist (df.rows.map (recordOfRow df.columns))),
                   ("count", JVal.jint (df.rows.map (recordOfRow df.columns)).length),
                   ("columns", JVal.jlist (df.columns.map JVal.jstr))]
    ∧ (df.rows.map (recordOfRow df.columns)).length = df.rows.length
    ∧ cellClean Cell.null = JVal.jnull
    ∧ cellClean (Cell.cstr "") = JVal.jnull := by
  obtain ⟨cols, rows⟩ := df
  cases cols with
  | nil => exact absurd rfl h2
  | cons c cs =>
    cases rows with
    | nil => exact absurd rfl h1
    | cons r rs =>
      refine ⟨rfl, ?_, rfl, rfl⟩
      simp [List.length_map]

/-- C3 (witness): the statement instantiated at a concrete frame holding a
null cell and an empty-string cell. -/
theorem claim3_witness :
    df0.rows ≠ [] ∧ df0.columns ≠ []
    ∧ (convert_dataframe_to_dict (some df0)
        = JVal.jobj [("data", JVal.jlist (df0.rows.map (recordOfRow df0.columns))),
                     ("count", JVal.jint (df0.rows.map (recordOfRow df0.columns)).length),
                     ("columns", JVal.jlist (df0.columns.map JVal.jstr))]
      ∧ (df0.rows.map (recordOfRow df0.columns)).length = df0.rows.length
      ∧ cellClean Cell.null = JVal.jnull
      ∧ cellClean (Cell.cstr "") = JVal.jnull) :=
  ⟨by decide, by decide, claim3_theorem df0 (by decide) (by decide)⟩

/-- C4 (code_bug evaluation): dispatcher-layer failure handling in the
source does not produce `Error in <operation_name>: <original_message>`.
At the cited site, server.py's `get_stats` catches the provider exception
and returns the mapping `{"error": "boom", "params": {}}` without raising,
and the message carries no `Error in get_stats`; the cited statcast raise
site wraps with `Error retrieving ...` instead.  The repository's own
tests (test_mlbstats.py) assert a raised `Error in <name>` text. -/
theorem claim4_theorem :
    Server.get_stats "stats" (JVal.jobj []) (fun _ _ => Except.error "boom")
      = JVal.jobj [("error", JVal.jstr "boom"), ("params", JVal.jobj [])]
    ∧ strHasSub "boom" "Error in get_stats" = false
    ∧ StatcastTools.get_statcast_data (some "2024-05-01") none none true true
        "2024-04-30" (fun _ _ _ _ _ => Except.error "bad query")
      = Except.error "Error retrieving Statcast data: bad query"
    ∧ strHasSub "Error retrieving Statcast data: bad query"
        "Error in get_statcast_data" = false :=
  ⟨rfl, by decide, rfl, by decide⟩

/-- C5: each statcast date-range operation with an absent start date does
not fail: it behaves exactly as if yesterday's date had been passed as the
start date, i.e. the provider is called with yesterday's date. -/
theorem claim5_theorem :
    (∀ (end_dt team : Option String) (verbose parallel : Bool)
       (yesterday : String)
       (statcast : String → Option String → Option String → Bool → Bool →
         Except String DataFrame),
      StatcastTools.get_statcast_data none end_dt team verbose parallel
          yesterday statcast
        = StatcastTools.get_statcast_data (some yesterday) end_dt team verbose
            parallel yesterday statcast
      ∧ StatcastTools.get_statcast_data none end_dt team verbose parallel
          yesterday statcast
        = StatcastTools.statcastResult "Error retrieving Statcast data: "
            (statcast yesterday end_dt team verbose parallel))
  ∧ (∀ (player_id : Int) (end_dt : Option String) (yesterday : String)
       (statcast_batter : String → Option String → Int →
         Except String DataFrame),
      StatcastTools.get_statcast_batter_data player_id none end_dt yesterday
          statcast_batter
        = StatcastTools.get_statcast_batter_data player_id (some yesterday)
            end_dt yesterday statcast_batter
      ∧ StatcastTools.get_statcast_batter_data player_id none end_dt yesterday
          statcast_batter
        = StatcastTools.statcastResult
            ("Error retrieving Statcast data for batter "
              ++ toString player_id ++ ": ")
            (statcast_batter yesterday end_dt player_id))
  ∧ (∀ (player_id : Int) (end_dt : Option String) (yesterday : String)
       (statcast_pitcher : String → Option String → Int →
         Except String DataFrame),
      StatcastTools.get_statcast_pitcher_data player_id none end_dt yesterday
          statcast_pitcher
        = StatcastTools.get_statcast_pitcher_data player_id (some yesterday)
            end_dt yesterday statcast_pitcher
      ∧ StatcastTools.get_statcast_pitcher_data player_id none end_dt
          yesterday statcast_pitcher
        = StatcastTools.statcastResult
            ("Error retrieving Statcast data for pitcher "
              ++ toString player_id ++ ": ")
            (statcast_pitcher yesterday end_dt player_id)) := by
  repeat' apply And.intro
  all_goals intros
  all_goals exact ⟨rfl, rfl⟩

/-- C6: `lookup_player` wraps the provider's result list (possibly empty)
under `people`, and on a provider raise returns a mapping carrying the
`error` key and the input name; the embedding's total result type reflects
that the body catches every exception, so none propagates. -/
theorem claim6_theorem :
    (∀ (name : String) (result : JVal),
      Tools.lookup_player name (fun _ => Except.ok result)
        = JVal.jobj [("people", result)])
  ∧ (∀ (name e : String),
      Tools.lookup_player name (fun _ => Except.error e)
        = JVal.jobj [("error", JVal.jstr e), ("name", JVal.jstr name)]) :=
  ⟨fun _ _ => rfl, fun _ _ => rfl⟩

/-- C7 (counterexample): two `get_team_leaders` invocations that differ in
`season` and `limit` produce identical error mappings, so the error
mapping does not carry enough of the original request to reproduce the
failing call. -/
theorem claim7_counterexample :
    Tools.get_team_leaders 143 "homeRuns" (some 2021) "R" (some 5)
        (fun _ _ _ _ => Except.error "upstream failure")
      = Tools.get_team_leaders 143 "homeRuns" (some 2020) "R" (some 3)
        (fun _ _ _ _ => Except.error "upstream failure")
    ∧ (Tools.get_team_leaders 143 "homeRuns" (some 2021) "R" (some 5)
        (fun _ _ _ _ => Except.error "upstream failure")).hasKey "error" = true :=
  ⟨rfl, rfl⟩

/-- C7 (amended): each error-keyed mapping carries its operation's fixed
context fields exactly — `params` for get_stats (the endpoint is omitted),
`params_sent` for get_schedule / get_player_stats / get_standings /
get_game_pace, `team_id` and `leader_category` for get_team_leaders
(season and limit are omitted), `name` for lookup_player, `game_id` for
get_boxscore and get_game_scoring_play_data, `type` and `fields` for
get_meta, and `endpoint` for get_notes — which is not always enough to
reproduce the failing call. -/
theorem claim7_theorem :
    (∀ (endpoint : String) (params : JVal) (e : String),
      Tools.get_stats endpoint params (fun _ _ => Except.error e)
        = JVal.jobj [("error", JVal.jstr e), ("params", params)])
  ∧ (∀ (date : Option String) (team_id : Option Int) (sport_id : Int)
       (game_type : Option String) (e : String),
      Tools.get_schedule date team_id sport_id game_type
          (fun _ => Except.error e)
        = JVal.jobj [("error", JVal.jstr e),
            ("params_sent", JVal.jobj
              (Tools.scheduleKwargs date team_id sport_id game_type))])
  ∧ (∀ (player_id : Int) (group : String) (season : Option Int)
       (stats : String) (e : String),
      Tools.get_player_stats player_id group season stats
          (fun _ => Except.error e)
        = JVal.jobj [("error", JVal.jstr e),
            ("params_sent", JVal.jobj
              (Tools.playerStatsKwargs player_id group season stats))])
  ∧ (∀ (league_id division_id season : Option Int) (standings_types : String)
       (e : String),
      Tools.get_standings league_id division_id season standings_types
          (fun _ => Except.error e)
        = JVal.jobj [("error", JVal.jstr e),
            ("params_sent", JVal.jobj
              (Tools.standingsKwargs league_id division_id season
                standings_types))])
  ∧ (∀ (team_id : Int) (leader_category : String) (season : Option Int)
       (leader_game_type : String) (limit : Option Int) (e : String),
      Tools.get_team_leaders team_id leader_category season leader_game_type
          limit (fun _ _ _ _ => Except.error e)
        = JVal.jobj [("error", JVal.jstr e), ("team_id", JVal.jint team_id),
            ("leader_category", JVal.jstr leader_category)])
  ∧ (∀ (name e : String),
      Tools.lookup_player name (fun _ => Except.error e)
        = JVal.jobj [("error", JVal.jstr e), ("name", JVal.jstr name)])
  ∧ (∀ (game_id : Int) (timecode : Option String) (e : String),
      Tools.get_boxscore game_id timecode (fun _ _ => Except.error e)
        = JVal.jobj [("error", JVal.jstr e), ("game_id", JVal.jint game_id)])
  ∧ (∀ (season team_id : Option Int) (e : String),
      Tools.get_game_pace season team_id (fun _ => Except.error e)
        = JVal.jobj [("error", JVal.jstr e),
            ("params_sent", JVal.jobj (Tools.gamePaceKwargs season team_id))])
  ∧ (∀ (type_name : String) (fields : Option String) (e : String),
      Tools.get_meta type_name fields (fun _ _ => Except.error e)
        = JVal.jobj [("error", JVal.jstr e), ("type", JVal.jstr type_name),
            ("fields", jOptStr fields)])
  ∧ (∀ (endpoint e : String),
      Tools.get_notes endpoint (fun _ => Except.error e)
        = JVal.jobj [("error", JVal.jstr e), ("endpoint", JVal.jstr endpoint)])
  ∧ (∀ (game_id : Int) (e : String),
      Tools.get_game_scoring_play_data game_id (fun _ => Except.error e)
        = JVal.jobj [("error", JVal.jstr e), ("game_id", JVal.jint game_id)]) := by
  repeat' apply And.intro
  all_goals try (intros; rfl)
  intro type_name fields e
  cases fields with
  | none => rfl
  | some f =>
    by_cases h : f = ""
    · simp only [Tools.get_meta, if_pos h]
    · simp only [Tools.get_meta, if_neg h]

/-- C8: every tool operation is a deterministic function of its inputs and
the provider's response: two invocations whose providers return the same
response at the arguments actually sent yield identical results, and for
the date-defaulting statcast operations the result is independent of the
ambient clock (`yesterday`) once the provider's response is fixed — no
state is retained between calls. -/
theorem claim8_theorem :
    (∀ (endpoint : String) (params : JVal)
       (f g : String → JVal → Except String JVal),
      f endpoint params = g endpoint params →
      Tools.get_stats endpoint params f = Tools.get_stats endpoint params g)
  ∧ (∀ (date : Option String) (team_id : Option Int) (sport_id : Int)
       (game_type : Option String)
       (f g : List (String × JVal) → Except String JVal),
      f (Tools.scheduleKwargs date team_id sport_id game_type)
        = g (Tools.scheduleKwargs date team_id sport_id game_type) →
      Tools.get_schedule date team_id sport_id game_type f
        = Tools.get_schedule date team_id sport_id game_type g)
  ∧ (∀ (player_id : Int) (group : String) (season : Option Int)
       (stats : String) (f g : List (String × JVal) → Except String JVal),
      f (Tools.playerStatsKwargs player_id group season stats)
        = g (Tools.playerStatsKwargs player_id group season stats) →
      Tools.get_player_stats player_id group season stats f
        = Tools.get_player_stats player_id group season stats g)
  ∧ (∀ (league_id division_id season : Option Int) (standings_types : String)
       (f g : List (String × JVal) → Except String JVal),
      f (Tools.standingsKwargs league_id division_id season standings_types)
        = g (Tools.standingsKwargs league_id division_id season standings_types) →
      Tools.get_standings league_id division_id season standings_types f
        = Tools.get_standings league_id division_id season standings_types g)
  ∧ (∀ (team_id : Int) (leader_category : String) (season : Option Int)
       (leader_game_type : String) (limit : Option Int)
       (f g : Int → String → Int → Option Int → Except String String),
      f team_id leader_category (Tools.limitOr10 limit) season
        = g team_id leader_category (Tools.limitOr10 limit) season →
      Tools.get_team_leaders team_id leader_category season leader_game_type
          limit f
        = Tools.get_team_leaders team_id leader_category season
            leader_game_type limit g)
  ∧ (∀ (name : String) (f g : String → Except String JVal),
      f name = g name →
      Tools.lookup_player name f = Tools.lookup_player name g)
  ∧ (∀ (game_id : Int) (timecode : Option String)
       (f g : Int → List (String × JVal) → Except String String),
      f game_id (Tools.boxscoreKwargs timecode)
        = g game_id (Tools.boxscoreKwargs timecode) →
      Tools.get_boxscore game_id timecode f
        = Tools.get_boxscore game_id timecode g)
  ∧ (∀ (season team_id : Option Int)
       (f g : List (String × JVal) → Except String JVal),
      f (Tools.gamePaceKwargs season team_id)
        = g (Tools.gamePaceKwargs season team_id) →
      Tools.get_game_pace season team_id f
        = Tools.get_game_pace season team_id g)
  ∧ (∀ (type_name : String) (fields : Option String)
       (f g : String → Option String → Except String JVal),
      (∀ o, f type_name o = g type_name o) →
      Tools.get_meta type_name fields f = Tools.get_meta type_name fields g)
  ∧ (∀ (endpoint : String) (f g : String → Except String String),
      f endpoint = g endpoint →
      Tools.get_notes endpoint f = Tools.get_notes endpoint g)
  ∧ (∀ (game_id : Int) (f g : Int → Except String JVal),
      f game_id = g game_id →
      Tools.get_game_scoring_play_data game_id f
        = Tools.get_game_scoring_play_data game_id g)
  ∧ (∀ (start_dt end_dt team : Option String) (verbose parallel : Bool)
       (yesterday : String)
       (f g : String → Option String → Option String → Bool → Bool →
         Except String DataFrame),
      f (StatcastTools.resolveStart start_dt yesterday) end_dt team verbose
          parallel
        = g (StatcastTools.resolveStart start_dt yesterday) end_dt team
            verbose parallel →
      StatcastTools.get_statcast_data start_dt end_dt team verbose parallel
          yesterday f
        = StatcastTools.get_statcast_data start_dt end_dt team verbose
            parallel yesterday g)
  ∧ (∀ (player_id : Int) (start_dt end_dt : Option String) (yesterday : String)
       (f g : String → Option String → Int → Except String DataFrame),
      f (StatcastTools.resolveStart start_dt yesterday) end_dt player_id
        = g (StatcastTools.resolveStart start_dt yesterday) end_dt player_id →
      StatcastTools.get_statcast_batter_data player_id start_dt end_dt
          yesterday f
        = StatcastTools.get_statcast_batter_data player_id start_dt end_dt
            yesterday g)
  ∧ (∀ (player_id : Int) (start_dt end_dt : Option String) (yesterday : String)
       (f g : String → Option String → Int → Except String DataFrame),
      f (StatcastTools.resolveStart start_dt yesterday) end_dt player_id
        = g (StatcastTools.resolveStart start_dt yesterday) end_dt player_id →
      StatcastTools.get_statcast_pitcher_data player_id start_dt end_dt
          yesterday f
        = StatcastTools.get_statcast_pitcher_data player_id start_dt end_dt
            yesterday g)
  ∧ (∀ (year : Int) (minBBE : Option Int)
       (f g : Int → Option Int → Except String DataFrame),
      f year minBBE = g year minBBE →
      StatcastTools.get_statcast_batter_exitvelo_barrels year minBBE f
        = StatcastTools.get_statcast_batter_exitvelo_barrels year minBBE g)
  ∧ (∀ (year : Int) (minBBE : Option Int)
       (f g : Int → Option Int → Except String DataFrame),
      f year minBBE = g year minBBE →
      StatcastTools.get_statcast_pitcher_exitvelo_barrels year minBBE f
        = StatcastTools.get_statcast_pitcher_exitvelo_barrels year minBBE g)
  ∧ (∀ (year : Int) (minPA : Option Int)
       (f g : Int → Option Int → Except String DataFrame),
      f year minPA = g year minPA →
      StatcastTools.get_statcast_batter_expected_stats year minPA f
        = StatcastTools.get_statcast_batter_expected_stats year minPA g)
  ∧ (∀ (year : Int) (minPA : Option Int)
       (f g : Int → Option Int → Except String DataFrame),
      f year minPA = g year minPA →
      StatcastTools.get_statcast_pitcher_expected_stats year minPA f
        = StatcastTools.get_statcast_pitcher_expected_stats year minPA g)
  ∧ (∀ (year : Int) (f g : Int → Except String DataFrame),
      f year = g year →
      StatcastTools.get_statcast_batter_percentile_ranks year f
        = StatcastTools.get_statcast_batter_percentile_ranks year g)
  ∧ (∀ (year : Int) (f g : Int → Except String DataFrame),
      f year = g year →
      StatcastTools.get_statcast_pitcher_percentile_ranks year f
        = StatcastTools.get_statcast_pitcher_percentile_ranks year g)
  ∧ (∀ (year minPA : Int) (f g : Int → Int → Except String DataFrame),
      f year minPA = g year minPA →
      StatcastTools.get_statcast_batter_pitch_arsenal year minPA f
        = StatcastTools.get_statcast_batter_pitch_arsenal year minPA g)
  ∧ (∀ (year : Int) (minP : Option Int) (arsenal_type : String)
       (f g : Int → Option Int → String → Except String DataFrame),
      f year minP arsenal_type = g year minP arsenal_type →
      StatcastTools.get_statcast_pitcher_pitch_arsenal year minP
          arsenal_type f
        = StatcastTools.get_statcast_pitcher_pitch_arsenal year minP
            arsenal_type g)
  ∧ (∀ (game_pk : Int) (f g : Int → Except String DataFrame),
      f game_pk = g game_pk →
      StatcastTools.get_statcast_single_game game_pk f
        = StatcastTools.get_statcast_single_game game_pk g)
  ∧ (∀ (start_dt end_dt team : Option String) (verbose parallel : Bool)
       (y1 y2 : String) (response : Except String DataFrame),
      StatcastTools.get_statcast_data start_dt end_dt team verbose parallel
          y1 (fun _ _ _ _ _ => response)
        = StatcastTools.get_statcast_data start_dt end_dt team verbose
            parallel y2 (fun _ _ _ _ _ => response))
  ∧ (∀ (player_id : Int) (start_dt end_dt : Option String) (y1 y2 : String)
       (response : Except String DataFrame),
      StatcastTools.get_statcast_batter_data player_id start_dt end_dt y1
          (fun _ _ _ => response)
        = StatcastTools.get_statcast_batter_data player_id start_dt end_dt y2
            (fun _ _ _ => response))
  ∧ (∀ (player_id : Int) (start_dt end_dt : Option String) (y1 y2 : String)
       (response : Except String DataFrame),
      StatcastTools.get_statcast_pitcher_data player_id start_dt end_dt y1
          (fun _ _ _ => response)
        = StatcastTools.get_statcast_pitcher_data player_id start_dt end_dt y2
            (fun _ _ _ => response)) := by
  repeat' apply And.intro
  all_goals intros
  all_goals try rfl
  all_goals rename_i h
  all_goals simp only [Tools.get_stats, Tools.get_schedule,
    Tools.get_player_stats, Tools.get_standings, Tools.get_team_leaders,
    Tools.lookup_player, Tools.get_boxscore, Tools.get_game_pace,
    Tools.get_meta, Tools.get_notes, Tools.get_game_scoring_play_data,
    StatcastTools.get_statcast_data, StatcastTools.get_statcast_batter_data,
    StatcastTools.get_statcast_pitcher_data,
    StatcastTools.get_statcast_batter_exitvelo_barrels,
    StatcastTools.get_statcast_pitcher_exitvelo_barrels,
    StatcastTools.get_statcast_batter_expected_stats,
    StatcastTools.get_statcast_pitcher_expected_stats,
    StatcastTools.get_statcast_batter_percentile_ranks,
    StatcastTools.get_statcast_pitcher_percentile_ranks,
    StatcastTools.get_statcast_batter_pitch_arsenal,
    StatcastTools.get_statcast_pitcher_pitch_arsenal,
    StatcastTools.get_statcast_single_game]
  all_goals simp only [h]

/-- C8 (witness): two providers that agree on the sent arguments yield the
same `get_stats` result. -/
theorem claim8_witness :
    Tools.get_stats "teams" (JVal.jobj [("sportId", JVal.jint 1)])
        (fun _ _ => Except.ok JVal.jnull)
      = Tools.get_stats "teams" (JVal.jobj [("sportId", JVal.jint 1)])
        (fun endpoint _ => if endpoint = "" then Except.error "unreachable"
          else Except.ok JVal.jnull) :=
  claim8_theorem.1 "teams" (JVal.jobj [("sportId", JVal.jint 1)]) _ _ rfl

/-- C9: the ten tool functions registered in server.py and the identically
named functions in tools/mlb_statsapi_tools.py are the same adapters: on
every input and every provider response they return the same result. -/
theorem claim9_theorem :
    (∀ (endpoint : String) (params : JVal)
       (get : String → JVal → Except String JVal),
      Server.get_stats endpoint params get
        = Tools.get_stats endpoint params get)
  ∧ (∀ (date : Option String) (team_id : Option Int) (sport_id : Int)
       (game_type : Option String)
       (schedule : List (String × JVal) → Except String JVal),
      Server.get_schedule date team_id sport_id game_type schedule
        = Tools.get_schedule date team_id sport_id game_type schedule)
  ∧ (∀ (player_id : Int) (group : String) (season : Option Int)
       (stats : String)
       (player_stat_data : List (String × JVal) → Except String JVal),
      Server.get_player_stats player_id group season stats player_stat_data
        = Tools.get_player_stats player_id group season stats player_stat_data)
  ∧ (∀ (league_id division_id season : Option Int) (standings_types : String)
       (standings_data : List (String × JVal) → Except String JVal),
      Server.get_standings league_id division_id season standings_types
          standings_data
        = Tools.get_standings league_id division_id season standings_types
            standings_data)
  ∧ (∀ (team_id : Int) (leader_category : String) (season : Option Int)
       (leader_game_type : String) (limit : Option Int)
       (team_leaders : Int → String → Int → Option Int → Except String String),
      Server.get_team_leaders team_id leader_category season leader_game_type
          limit team_leaders
        = Tools.get_team_leaders team_id leader_category season
            leader_game_type limit team_leaders)
  ∧ (∀ (name : String) (lookup : String → Except String JVal),
      Server.lookup_player name lookup = Tools.lookup_player name lookup)
  ∧ (∀ (game_id : Int) (timecode : Option String)
       (boxscore : Int → List (String × JVal) → Except String String),
      Server.get_boxscore game_id timecode boxscore
        = Tools.get_boxscore game_id timecode boxscore)
  ∧ (∀ (season team_id : Option Int)
       (game_pace_data : List (String × JVal) → Except String JVal),
      Server.get_game_pace season team_id game_pace_data
        = Tools.get_game_pace season team_id game_pace_data)
  ∧ (∀ (type_name : String) (fields : Option String)
       (meta : String → Option String → Except String JVal),
      Server.get_meta type_name fields meta
        = Tools.get_meta type_name fields meta)
  ∧ Server.get_available_endpoints = Tools.get_available_endpoints := by
  repeat' apply And.intro
  all_goals intros
  all_goals rfl

/-- C10: `get_team_leaders` is independent of its `leader_game_type`
parameter, in both tools/mlb_statsapi_tools.py and server.py: invocations
differing only in `leader_game_type` return identical mappings, because
the parameter is never forwarded to the provider and never placed in the
result. -/
theorem claim10_theorem :
    (∀ (team_id : Int) (leader_category : String) (season : Option Int)
       (g1 g2 : String) (limit : Option Int)
       (team_leaders : Int → String → Int → Option Int → Except String String),
      Tools.get_team_leaders team_id leader_category season g1 limit
          team_leaders
        = Tools.get_team_leaders team_id leader_category season g2 limit
            team_leaders)
  ∧ (∀ (team_id : Int) (leader_category : String) (season : Option Int)
       (g1 g2 : String) (limit : Option Int)
       (team_leaders : Int → String → Int → Option Int → Except String String),
      Server.get_team_leaders team_id leader_category season g1 limit
          team_leaders
        = Server.get_team_leaders team_id leader_category season g2 limit
            team_leaders) := by
  repeat' apply And.intro
  all_goals intros
  all_goals rfl
